import Mathlib

/-!
# jRPC client (`cs/client.go`): `Dial`, `Client.Call`, `Client.Discover`

Two embeddings of the same source file.

* `JRPC` (first part): one invocation on a client nobody else is using.  The
  codec (`jRPC/codec`), the peer behind it and `net.DialTimeout` are external;
  they enter as data: what each call returns and the instant at which it
  returns.  A `select` between a completion channel and `time.After d` takes
  the completion branch when the completion comes strictly before `d`, the
  timer branch when it comes strictly after (or never), and either one on a
  tie (`tie` flag).  A Go panic is an `Except.error`.
* `JRPC.Conc` (second part): the goroutines of any number of invocations on
  one client as an interleaving transition system over the mutex `sending`
  and the two unbuffered channels of each invocation.
-/

namespace JRPC

/-! ## Go values -/

/-- A Go slice: `none` is the nil slice, `some xs` a non-nil slice holding `xs`. -/
abbrev Slice (α : Type) := Option (List α)

/-- A Go `error`: `none` is nil, `some msg` an error whose `Error()` is `msg`. -/
abbrev GoError := Option String

/-- An `interface{}` value, by dynamic type. -/
inductive Value where
  | nil
  | bool (b : Bool)
  | int (n : Int)
  | str (s : String)
  | other (typeName : String) (repr : String)
deriving DecidableEq, Repr

/-- A `net.Conn`, identified by a number. -/
structure Conn where
  id : Nat
deriving DecidableEq, Repr

/-- The `protocol.Request` message. -/
structure Request where
  Method : String
  Args : Slice Value
deriving DecidableEq, Repr

/-- The `protocol.Response` message. -/
structure Response where
  Replies : Slice Value
  Err : String
deriving DecidableEq, Repr

/-- A run-time panic of the Go program. -/
inductive Panic where
  | nilDereference
  | indexOutOfRange
deriving DecidableEq, Repr

/-- One line given to the `logger` package. -/
inductive LogEntry where
  | warn (msg : String)
  | info (msg : String)
  | debug (msg : String)
  | debugValue (idx : Nat) (v : Value)
deriving DecidableEq, Repr

/-! ## Time -/

/-- One `time.Second`, in nanoseconds. -/
def second : Nat := 1000000000

/-- The constant `clientConnectTimeOut = time.Second * 2`. -/
def clientConnectTimeOut : Nat := second * 2

/-- The constant `clientCallTimeOut = time.Second * 4`. -/
def clientCallTimeOut : Nat := second * 4

/-- A `select` over `<-time.After(d)` and a completion channel whose sender
is ready at `doneAt` (`none`: never).  True when the completion branch runs. -/
def selectSignal (d : Nat) (doneAt : Option Nat) (tie : Bool) : Bool :=
  match doneAt with
  | none => false
  | some t => if t < d then true else if t = d then tie else false

/-- How the scheduler settles the two `select`s of one invocation on a tie. -/
structure Sched where
  tieWrite : Bool
  tieRead : Bool
deriving DecidableEq, Repr

/-! ## The codec boundary -/

/-- What one `WriteRequest` does: the error it returns and when it returns. -/
structure WriteResult where
  err : GoError
  doneAt : Option Nat
deriving DecidableEq, Repr

/-- What one `ReadResponse` does: the pointer and error it returns and when. -/
structure ReadResult where
  resp : Option Response
  err : GoError
  doneAt : Option Nat
deriving DecidableEq, Repr

/-- The `codec.ClientCodec` together with the peer: the behaviour of
`WriteRequest` on a request and of the `ReadResponse` that follows it. -/
structure ClientCodec where
  WriteRequest : Request → WriteResult
  ReadResponse : Request → ReadResult

/-- A call made on the codec. -/
inductive CodecOp where
  | writeRequest (req : Request)
  | readResponse
deriving DecidableEq, Repr

/-- The `Client` struct (the mutex `sending` is in `JRPC.Conc`). -/
structure Client where
  clientCodec : ClientCodec

/-- What one invocation did: codec calls started, log lines, and the value
returned (or the panic raised). -/
structure Run (α : Type) where
  ops : List CodecOp
  log : List LogEntry
  result : Except Panic α

/-- The requests handed to `WriteRequest` during the invocation, in order. -/
def Run.written {α : Type} (r : Run α) : List Request :=
  r.ops.filterMap fun o =>
    match o with
    | CodecOp.writeRequest q => some q
    | CodecOp.readResponse => none

/-- The literal compared with the first reply in `Discover`. -/
def registeredSentinel : String := "The function has been registered!"

/-- The expression `resp.Replies[0]`: `none` is the index-out-of-range panic. -/
def index0 (s : Slice Value) : Option Value :=
  match s with
  | none => none
  | some [] => none
  | some (v :: _) => some v

/-- The elements a `range` over the slice visits. -/
def Slice.elems {α : Type} (s : Slice α) : List α :=
  match s with
  | none => []
  | some xs => xs

/-- The warning of `if err != nil { logger.Warnln(... + err.Error()) }`. -/
def recvErrLog (err : GoError) : List LogEntry :=
  match err with
  | none => []
  | some e => [LogEntry.warn ("rpc client: client receive: " ++ e)]

/-- The `Client.Discover` method (lines 33-94). -/
def Client.Discover (c : Client) (sch : Sched) (method : String) : Run Bool :=
  let req : Request := { Method := "Discover:" ++ method, Args := none }
  let w := c.clientCodec.WriteRequest req
  if selectSignal clientCallTimeOut w.doneAt sch.tieWrite = false then
    { ops := [CodecOp.writeRequest req],
      log := [LogEntry.warn "rpc client: WriteRequest timeout: expect within 4s"],
      result := Except.ok false }
  else
    let r := c.clientCodec.ReadResponse req
    let ops := [CodecOp.writeRequest req, CodecOp.readResponse]
    if selectSignal clientCallTimeOut r.doneAt sch.tieRead = false then
      { ops := ops,
        log := [LogEntry.warn "rpc client: ReadResponse timeout: expect within 4s"],
        result := Except.ok false }
    else
      let log1 := recvErrLog r.err
      match r.resp with
      | none => { ops := ops, log := log1, result := Except.error Panic.nilDereference }
      | some resp =>
        if resp.Err ≠ "" then
          { ops := ops,
            log := log1 ++ [LogEntry.warn ("rpc client: client receive: " ++ resp.Err)],
            result := Except.ok false }
        else
          let log2 := log1 ++ [LogEntry.debug "rpc client: client discover success\n"]
          match index0 resp.Replies with
          | none => { ops := ops, log := log2, result := Except.error Panic.indexOutOfRange }
          | some v =>
            if v = Value.str registeredSentinel then
              { ops := ops,
                log := log2 ++ [LogEntry.info ("The function " ++ method ++ " has been registered!")],
                result := Except.ok true }
            else
              { ops := ops,
                log := log2 ++ [LogEntry.info ("The function " ++ method ++ " has not been registered!")],
                result := Except.ok false }

/-- The `Client.Call` method (lines 96-155).  The returned slice is nil
(`none`) on every no-result path. -/
def Client.Call (c : Client) (sch : Sched) (method : String) (args : Slice Value) :
    Run (Slice Value) :=
  let req : Request := { Method := method, Args := args }
  let w := c.clientCodec.WriteRequest req
  if selectSignal clientCallTimeOut w.doneAt sch.tieWrite = false then
    { ops := [CodecOp.writeRequest req],
      log := [LogEntry.warn "rpc client: WriteRequest timeout: expect within 4s"],
      result := Except.ok none }
  else
    let r := c.clientCodec.ReadResponse req
    let ops := [CodecOp.writeRequest req, CodecOp.readResponse]
    if selectSignal clientCallTimeOut r.doneAt sch.tieRead = false then
      { ops := ops,
        log := [LogEntry.warn "rpc client: ReadResponse timeout: expect within 4s"],
        result := Except.ok none }
    else
      let log1 := recvErrLog r.err
      match r.resp with
      | none => { ops := ops, log := log1, result := Except.error Panic.nilDereference }
      | some resp =>
        if resp.Err ≠ "" then
          { ops := ops,
            log := log1 ++ [LogEntry.warn ("rpc client: client receive: " ++ resp.Err)],
            result := Except.ok none }
        else
          { ops := ops,
            log := log1 ++ [LogEntry.debug "rpc client: client call success\n"]
              ++ (resp.Replies.elems.enum.map fun p => LogEntry.debugValue p.1 p.2),
            result := Except.ok resp.Replies }

/-! ## Dial -/

/-- What `net.DialTimeout("tcp", addr, clientConnectTimeOut)` does for an
address: the connection and error it returns, and when it returns. -/
structure Handshake where
  conn : Option Conn
  err : GoError
  doneAt : Option Nat
deriving DecidableEq, Repr

/-- What `Dial` returns, with the lines it logged. -/
structure DialRun where
  conn : Option Conn
  err : GoError
  log : List LogEntry
deriving DecidableEq, Repr

/-- The `Dial` function (lines 159-178); `net` is `net.DialTimeout`. -/
def Dial (net : String → Handshake) (tie : Bool) (addr : String) : DialRun :=
  let h := net addr
  if selectSignal clientConnectTimeOut h.doneAt tie = false then
    { conn := none,
      err := some "rpc client: new client timeout: expect within 2s",
      log := [] }
  else
    { conn := h.conn,
      err := none,
      log := match h.err with
        | none => []
        | some e => [LogEntry.warn ("rpc client: new client error: " ++ e)] }

/-! ## Goroutines of one client

Every invocation of `Call` or `Discover` on one `Client` runs a calling
goroutine and up to two background goroutines.  They share the mutex
`c.sending`; the channels `sent` and `read` are private to the invocation and
unbuffered, so a send completes only together with the receive of the calling
goroutine.  A timer may fire at any moment its `select` is waiting. -/

namespace Conc

/-- Which method an invocation runs. -/
inductive Kind where
  | call
  | discover
deriving DecidableEq, Repr

/-- Position of the calling goroutine (line numbers: Discover / Call). -/
inductive MainPc where
  /-- Not yet past `c.sending.Lock()` (34 / 98). -/
  | idle
  /-- Holds the mutex, writer goroutine not yet started (36-37 / 100-101). -/
  | locked
  /-- Waiting in the first `select` (47 / 111). -/
  | waitSent
  /-- Timer branch of the first `select` taken, before `Unlock` (50-51 / 114-115). -/
  | writeTimedOut
  /-- Discover only: `sent` received, before `Unlock` (53-54). -/
  | gotSent
  /-- Past the first `select`, reader goroutine not yet started (58-61 / 121-124). -/
  | readyRead
  /-- Waiting in the second `select` (67 / 131). -/
  | waitRead
  /-- Write-timeout branch: `Unlock` done (51 / 115), `return` not yet run. -/
  | writeUnlocked
  /-- Returned on the write timeout (52 / 116). -/
  | retWriteTimeout
  /-- Returned on the read timeout (71 / 135). -/
  | retReadTimeout
  /-- Received from `read`; the rest (76-93 / 139-154) touches nothing shared. -/
  | retNormal
deriving DecidableEq, Repr

/-- Position of the writer goroutine (37-45 / 101-109). -/
inductive WriterPc where
  | notStarted
  /-- Started, `WriteRequest` not yet called. -/
  | spawned
  /-- Inside `c.clientCodec.WriteRequest(req)` (43 / 107). -/
  | writing
  /-- At `sent <- struct{}{}` (44 / 108), waiting for a receiver. -/
  | sending
  | exited
deriving DecidableEq, Repr

/-- Position of the reader goroutine (61-65 / 124-129). -/
inductive ReaderPc where
  | notStarted
  /-- Started, up to the return of `c.clientCodec.ReadResponse()` (63 / 126). -/
  | reading
  /-- At `read <- struct{}{}` (64 / 127), waiting for a receiver. -/
  | sending
  /-- Call only: past the send, before `c.sending.Unlock()` (128). -/
  | unlocking
  | exited
deriving DecidableEq, Repr

/-- The goroutines of one invocation. -/
structure Inv where
  kind : Kind
  main : MainPc
  writer : WriterPc
  reader : ReaderPc
deriving DecidableEq, Repr

/-- An invocation nobody has made yet. -/
def Inv.fresh : Inv :=
  { kind := Kind.call, main := MainPc.idle, writer := WriterPc.notStarted,
    reader := ReaderPc.notStarted }

/-- One atomic step of one invocation. -/
inductive Act where
  /-- The invocation is made as `k` and `c.sending.Lock()` returns. -/
  | lock (k : Kind)
  /-- The statement `go func() { ... WriteRequest ... }()`. -/
  | spawnWriter
  /-- The writer calls `WriteRequest`. -/
  | beginWrite
  /-- The call `WriteRequest` returns (its error is dropped). -/
  | endWrite
  /-- The send on `sent` meets `case <-sent`. -/
  | recvSent
  /-- The branch `case <-time.After(clientCallTimeOut)` of the first `select`. -/
  | writeTimeout
  /-- The `c.sending.Unlock()` of the write-timeout branch (51 / 115). -/
  | unlockTimeout
  /-- The `return` of the write-timeout branch (52 / 116). -/
  | returnTimeout
  /-- Discover: `c.sending.Unlock()` in `case <-sent`. -/
  | unlockSent
  /-- The statement `go func() { ... ReadResponse ... }()`. -/
  | spawnReader
  /-- The call `ReadResponse` returns. -/
  | endRead
  /-- The send on `read` meets `case <-read`. -/
  | recvRead
  /-- The branch `case <-time.After(clientCallTimeOut)` of the second `select`, then `return`. -/
  | readTimeout
  /-- Call: `c.sending.Unlock()` in the reader goroutine, after its send. -/
  | readerUnlock
deriving DecidableEq, Repr

/-- The effect of an action on the mutex and on the invocation taking it:
`none` when the action cannot be taken; otherwise the new mutex state,
whether the run-time aborted (`Unlock` of an unlocked mutex), and the new
invocation state. -/
def localStep (a : Act) (lock : Bool) (v : Inv) : Option (Bool × Bool × Inv) :=
  match a, v.main with
  | Act.lock k, MainPc.idle =>
    if lock then none else some (true, false, { v with kind := k, main := MainPc.locked })
  | Act.spawnWriter, MainPc.locked =>
    some (lock, false, { v with main := MainPc.waitSent, writer := WriterPc.spawned })
  | Act.beginWrite, _ =>
    if v.writer = WriterPc.spawned then
      some (lock, false, { v with writer := WriterPc.writing }) else none
  | Act.endWrite, _ =>
    if v.writer = WriterPc.writing then
      some (lock, false, { v with writer := WriterPc.sending }) else none
  | Act.recvSent, MainPc.waitSent =>
    if v.writer = WriterPc.sending then
      some (lock, false,
        { v with writer := WriterPc.exited,
                 main := if v.kind = Kind.discover then MainPc.gotSent else MainPc.readyRead })
    else none
  | Act.writeTimeout, MainPc.waitSent =>
    some (lock, false, { v with main := MainPc.writeTimedOut })
  | Act.unlockTimeout, MainPc.writeTimedOut =>
    some (false, !lock, { v with main := MainPc.writeUnlocked })
  | Act.returnTimeout, MainPc.writeUnlocked =>
    some (lock, false, { v with main := MainPc.retWriteTimeout })
  | Act.unlockSent, MainPc.gotSent =>
    some (false, !lock, { v with main := MainPc.readyRead })
  | Act.spawnReader, MainPc.readyRead =>
    some (lock, false, { v with main := MainPc.waitRead, reader := ReaderPc.reading })
  | Act.endRead, _ =>
    if v.reader = ReaderPc.reading then
      some (lock, false, { v with reader := ReaderPc.sending }) else none
  | Act.recvRead, MainPc.waitRead =>
    if v.reader = ReaderPc.sending then
      some (lock, false,
        { v with main := MainPc.retNormal,
                 reader := if v.kind = Kind.call then ReaderPc.unlocking else ReaderPc.exited })
    else none
  | Act.readTimeout, MainPc.waitRead =>
    some (lock, false, { v with main := MainPc.retReadTimeout })
  | Act.readerUnlock, _ =>
    if v.reader = ReaderPc.unlocking then
      some (false, !lock, { v with reader := ReaderPc.exited }) else none
  | _, _ => none

/-- One client: the mutex `sending`, whether the process aborted, and the
invocations made on it, by number. -/
structure State where
  lock : Bool
  fatal : Bool
  inv : Nat → Inv

/-- A new client: mutex free, no invocation made. -/
def State.init : State := { lock := false, fatal := false, inv := fun _ => Inv.fresh }

/-- The function `f` with the value at `i` replaced by `v`. -/
def setInv (f : Nat → Inv) (i : Nat) (v : Inv) : Nat → Inv :=
  fun j => if j = i then v else f j

/-- Invocation `e.1` takes action `e.2`. -/
def step (s : State) (e : Nat × Act) : Option State :=
  if s.fatal then none
  else
    match localStep e.2 s.lock (s.inv e.1) with
    | none => none
    | some (l, f, v) => some { lock := l, fatal := f, inv := setInv s.inv e.1 v }

/-- A sequence of actions, from the left. -/
def run (s : State) : List (Nat × Act) → Option State
  | [] => some s
  | e :: es =>
    match step s e with
    | none => none
    | some t => run t es

/-- States some interleaving of invocations reaches from a new client. -/
def Reachable (s : State) : Prop := ∃ es, run State.init es = some s

/-- The invocation is the one the mutex is locked for: it locked it and the
matching `Unlock` has not run. -/
def holds (v : Inv) : Bool :=
  match v.main with
  | MainPc.locked | MainPc.waitSent | MainPc.writeTimedOut | MainPc.gotSent => true
  | MainPc.readyRead | MainPc.waitRead | MainPc.retReadTimeout => decide (v.kind = Kind.call)
  | MainPc.retNormal => decide (v.reader = ReaderPc.unlocking)
  | MainPc.idle | MainPc.writeUnlocked | MainPc.retWriteTimeout => false

/-- Consistency of the three program counters of one invocation. -/
def wf (v : Inv) : Bool :=
  (decide (v.main = MainPc.gotSent) → decide (v.kind = Kind.discover))
  && (decide (v.reader = ReaderPc.unlocking) → decide (v.main = MainPc.retNormal))
  && (decide (v.writer = WriterPc.spawned ∨ v.writer = WriterPc.writing
        ∨ v.writer = WriterPc.sending) →
      decide (v.main = MainPc.waitSent ∨ v.main = MainPc.writeTimedOut
        ∨ v.main = MainPc.writeUnlocked ∨ v.main = MainPc.retWriteTimeout))
  && (decide (v.main = MainPc.waitRead ∨ v.main = MainPc.retReadTimeout) →
      decide (v.reader = ReaderPc.reading ∨ v.reader = ReaderPc.sending))

/-- The invocation has run the `c.sending.Unlock()` of its write-timeout
branch (51 / 115): it gave the mutex up without waiting for its writer. -/
def abandoned (v : Inv) : Bool :=
  match v.main with
  | MainPc.writeUnlocked | MainPc.retWriteTimeout => true
  | _ => false

/-- An earlier invocation has run the `Unlock` of its write-timeout branch
but not yet its `return`, its `WriteRequest` still running, when a later
invocation locks the mutex and starts its own `WriteRequest`. -/
def earlyOverlapTrace : List (Nat × Act) :=
  [(0, Act.lock Kind.call), (0, Act.spawnWriter), (0, Act.beginWrite),
   (0, Act.writeTimeout), (0, Act.unlockTimeout),
   (1, Act.lock Kind.discover), (1, Act.spawnWriter), (1, Act.beginWrite)]

/-- An earlier invocation times out on its write while `WriteRequest` is still
running, and a later invocation starts its own `WriteRequest`. -/
def overlapTrace : List (Nat × Act) :=
  [(0, Act.lock Kind.call), (0, Act.spawnWriter), (0, Act.beginWrite),
   (0, Act.writeTimeout), (0, Act.unlockTimeout), (0, Act.returnTimeout),
   (1, Act.lock Kind.call), (1, Act.spawnWriter), (1, Act.beginWrite)]

/-- A `Call` whose read times out, after which `ReadResponse` returns. -/
def readTimeoutTrace : List (Nat × Act) :=
  [(0, Act.lock Kind.call), (0, Act.spawnWriter), (0, Act.beginWrite), (0, Act.endWrite),
   (0, Act.recvSent), (0, Act.spawnReader), (0, Act.readTimeout), (0, Act.endRead)]

/-- The invariant of the mutex discipline: the process has not aborted, every
invocation is consistent, an invocation that holds the mutex finds it locked,
and no two invocations hold it. -/
def Good (s : State) : Prop :=
  s.fatal = false
    ∧ (∀ i, wf (s.inv i) = true)
    ∧ (∀ i, holds (s.inv i) = true → s.lock = true)
    ∧ (∀ i j, holds (s.inv i) = true → holds (s.inv j) = true → i = j)

/-- The state in which invocation 0 has timed out on its write and invocation
1 has started writing. -/
def overlapState : State := (run State.init overlapTrace).getD State.init

/-- The state in which invocation 0, a `Call`, has just returned on its read
timeout. -/
def readTimedOutState : State := (run State.init readTimeoutTrace.dropLast).getD State.init

/-- The state after the `ReadResponse` of that `Call` has returned as well. -/
def readReturnedState : State := (run State.init readTimeoutTrace).getD State.init

/-- The state the trace `earlyOverlapTrace` ends in. -/
def earlyOverlapState : State := (run State.init earlyOverlapTrace).getD State.init

/-- The state in which invocation 0 is inside `WriteRequest`. -/
def writingState : State := (run State.init (overlapTrace.take 3)).getD State.init

end Conc

/-! ## Sample environments -/

/-- A handshake refused after one millisecond. -/
def refusedNet : String → Handshake :=
  fun _ => { conn := none, err := some "connect: connection refused", doneAt := some 1000000 }

/-- A peer that answers within a millisecond, reversing the arguments. -/
def revCodec : ClientCodec :=
  { WriteRequest := fun _ => { err := none, doneAt := some 1000 },
    ReadResponse := fun q =>
      { resp := some { Replies := some q.Args.elems.reverse, Err := "" },
        err := none, doneAt := some 1000000 } }

/-- A codec whose answers are fixed: `w` for every write, `r` for every read. -/
def constCodec (w : WriteResult) (r : ReadResult) : ClientCodec :=
  { WriteRequest := fun _ => w, ReadResponse := fun _ => r }

/-- A write that returns at once without error. -/
def quickWrite : WriteResult := { err := none, doneAt := some 1000 }

/-- A write that returns at once with an error. -/
def failedWrite : WriteResult := { err := some "write: broken pipe", doneAt := some 1000 }

/-- A write that never returns. -/
def stuckWrite : WriteResult := { err := none, doneAt := none }

/-- A read that fails in the transport and yields no response value. -/
def brokenRead : ReadResult := { resp := none, err := some "EOF", doneAt := some 1000000 }

/-- A read that yields `resp` after one millisecond. -/
def readOf (resp : Response) : ReadResult :=
  { resp := some resp, err := none, doneAt := some 1000000 }

/-- A read that returns only after ten seconds. -/
def slowRead : ReadResult :=
  { resp := some { Replies := some [Value.int 1], Err := "" }, err := none,
    doneAt := some (second * 10) }

/-- The scheduler that gives ties to the timer. -/
def sched0 : Sched := { tieWrite := false, tieRead := false }

/-! ## The `select` race -/

theorem selectSignal_of_lt (d t : Nat) (tie : Bool) (h : t < d) :
    selectSignal d (some t) tie = true := by
  simp [selectSignal, h]

theorem selectSignal_of_gt (d t : Nat) (tie : Bool) (h : d < t) :
    selectSignal d (some t) tie = false := by
  have h1 : ¬ t < d := by omega
  have h2 : ¬ t = d := by omega
  simp [selectSignal, h1, h2]

theorem selectSignal_never (d : Nat) (tie : Bool) : selectSignal d none tie = false := rfl

/-! ## Dial -/

/-- When the handshake returns before the connect deadline, `Dial` hands back
the connection of the handshake and a nil error, whatever error the handshake
returned. -/
theorem Dial_in_time (net : String → Handshake) (tie : Bool) (addr : String)
    (h : selectSignal clientConnectTimeOut (net addr).doneAt tie = true) :
    (Dial net tie addr).conn = (net addr).conn ∧ (Dial net tie addr).err = none := by
  simp [Dial, h]

/-- C1 (failing input): the handshake to `127.0.0.1:1` is refused after one
millisecond, well before the two-second deadline, with a non-nil error; `Dial`
logs that error and returns a nil connection together with a nil error. -/
theorem Dial_refused_returns_nil_error :
    (refusedNet "127.0.0.1:1").err = some "connect: connection refused"
      ∧ selectSignal clientConnectTimeOut (refusedNet "127.0.0.1:1").doneAt false = true
      ∧ Dial refusedNet false "127.0.0.1:1"
        = { conn := none, err := none,
            log := [LogEntry.warn
              "rpc client: new client error: connect: connection refused"] } := by
  decide

/-! ## Call -/

/-- C2: when the `select` on the write and the `select` on the read both take
the completion branch and the response read has an empty `Err`, `Call` returns
exactly the `Replies` slice of that response. -/
theorem Call_returns_replies (c : Client) (sch : Sched) (method : String) (args : Slice Value)
    (resp : Response)
    (hw : selectSignal clientCallTimeOut
      (c.clientCodec.WriteRequest { Method := method, Args := args }).doneAt sch.tieWrite = true)
    (hr : selectSignal clientCallTimeOut
      (c.clientCodec.ReadResponse { Method := method, Args := args }).doneAt sch.tieRead = true)
    (hresp : (c.clientCodec.ReadResponse { Method := method, Args := args }).resp = some resp)
    (herr : resp.Err = "") :
    (c.Call sch method args).result = Except.ok resp.Replies := by
  simp [Client.Call, hw, hr, hresp, herr]

/-- Witness for C2: the peer that reverses its arguments makes
`Call("rev", 1, 2, 3)` return `[3, 2, 1]`. -/
theorem Call_returns_replies_witness :
    ((Client.mk revCodec).Call sched0 "rev"
        (some [Value.int 1, Value.int 2, Value.int 3])).result
      = Except.ok (some [Value.int 3, Value.int 2, Value.int 1]) :=
  Call_returns_replies (Client.mk revCodec) sched0 "rev"
    (some [Value.int 1, Value.int 2, Value.int 3])
    { Replies := some [Value.int 3, Value.int 2, Value.int 1], Err := "" }
    (by decide) (by decide) (by decide) (by decide)

/-- C3: whenever the response has a non-empty `Err`, `Call` returns the nil
slice, whatever `Replies` holds (and whatever the timing and the transport
error are). -/
theorem Call_err_gives_nil (c : Client) (sch : Sched) (method : String) (args : Slice Value)
    (resp : Response)
    (hresp : (c.clientCodec.ReadResponse { Method := method, Args := args }).resp = some resp)
    (herr : resp.Err ≠ "") :
    (c.Call sch method args).result = Except.ok none := by
  unfold Client.Call
  simp only [hresp]
  split
  · rfl
  · split
    · rfl
    · simp [herr]

/-- Witness for C3: a response with replies and the error text `no such method`. -/
theorem Call_err_gives_nil_witness :
    ({ Replies := some [Value.int 7], Err := "no such method" } : Response).Err ≠ ""
      ∧ ((Client.mk (constCodec quickWrite
            (readOf { Replies := some [Value.int 7], Err := "no such method" }))).Call
          sched0 "f" (some [Value.int 1])).result = Except.ok none :=
  ⟨by decide,
   Call_err_gives_nil _ sched0 "f" (some [Value.int 1])
     { Replies := some [Value.int 7], Err := "no such method" } rfl (by decide)⟩

/-! ## Discover -/

/-- When the response arrives in time and `resp.Replies[0]` exists, `Discover`
returns true exactly when `Err` is empty and that first reply is the sentinel
string. -/
theorem Discover_first_reply (c : Client) (sch : Sched) (method : String) (resp : Response)
    (v : Value)
    (hw : selectSignal clientCallTimeOut
      (c.clientCodec.WriteRequest { Method := "Discover:" ++ method, Args := none }).doneAt
      sch.tieWrite = true)
    (hr : selectSignal clientCallTimeOut
      (c.clientCodec.ReadResponse { Method := "Discover:" ++ method, Args := none }).doneAt
      sch.tieRead = true)
    (hresp : (c.clientCodec.ReadResponse { Method := "Discover:" ++ method, Args := none }).resp
      = some resp)
    (hv : index0 resp.Replies = some v) :
    (c.Discover sch method).result
      = Except.ok (decide (resp.Err = "" ∧ v = Value.str registeredSentinel)) := by
  by_cases herr : resp.Err = "" <;> by_cases hs : v = Value.str registeredSentinel <;>
    simp [Client.Discover, hw, hr, hresp, hv, herr, hs]

/-- A response with a non-empty `Err` makes `Discover` return false, whatever
its reply list is. -/
theorem Discover_err_gives_false (c : Client) (sch : Sched) (method : String) (resp : Response)
    (hresp : (c.clientCodec.ReadResponse { Method := "Discover:" ++ method, Args := none }).resp
      = some resp)
    (herr : resp.Err ≠ "") :
    (c.Discover sch method).result = Except.ok false := by
  unfold Client.Discover
  simp only [hresp]
  split
  · rfl
  · split
    · rfl
    · simp [herr]

/-- C4 (failing input): a response received in time with an empty `Err` and
an empty reply list, non-nil or nil, does not make `Discover` return false:
the expression `resp.Replies[0]` panics with index out of range. -/
theorem Discover_empty_replies_panics :
    ((Client.mk (constCodec quickWrite (readOf { Replies := some [], Err := "" }))).Discover
        sched0 "add").result = Except.error Panic.indexOutOfRange
      ∧ ((Client.mk (constCodec quickWrite (readOf { Replies := none, Err := "" }))).Discover
        sched0 "add").result = Except.error Panic.indexOutOfRange :=
  ⟨rfl, rfl⟩

/-! ## Transport errors and timeouts -/

/-- A transport error that comes with a response value is logged and the
outcome of `Call` is decided from the response alone. -/
theorem Call_transport_error_with_response (c : Client) (sch : Sched) (method : String)
    (args : Slice Value) (resp : Response)
    (hw : selectSignal clientCallTimeOut
      (c.clientCodec.WriteRequest { Method := method, Args := args }).doneAt sch.tieWrite = true)
    (hr : selectSignal clientCallTimeOut
      (c.clientCodec.ReadResponse { Method := method, Args := args }).doneAt sch.tieRead = true)
    (hresp : (c.clientCodec.ReadResponse { Method := method, Args := args }).resp = some resp) :
    (c.Call sch method args).result
      = Except.ok (if resp.Err = "" then resp.Replies else none) := by
  by_cases herr : resp.Err = "" <;> simp [Client.Call, hw, hr, hresp, herr]

/-- C5 (failing input): `ReadResponse` returns in time with the transport error
`EOF` and a nil response pointer; `Call` and `Discover` log the error, go on to
`resp.Err` and panic with a nil dereference instead of returning. -/
theorem nil_response_panics :
    brokenRead.resp = none ∧ brokenRead.err = some "EOF"
      ∧ (Client.mk (constCodec quickWrite brokenRead)).Call sched0 "add" (some [Value.int 1])
        = { ops := [CodecOp.writeRequest { Method := "add", Args := some [Value.int 1] },
                    CodecOp.readResponse],
            log := [LogEntry.warn "rpc client: client receive: EOF"],
            result := Except.error Panic.nilDereference }
      ∧ (Client.mk (constCodec quickWrite brokenRead)).Discover sched0 "add"
        = { ops := [CodecOp.writeRequest { Method := "Discover:add", Args := none },
                    CodecOp.readResponse],
            log := [LogEntry.warn "rpc client: client receive: EOF"],
            result := Except.error Panic.nilDereference } :=
  ⟨rfl, rfl, rfl, rfl⟩

/-- C6: if the first `select` takes its timer branch, or the first takes the
completion branch and the second its timer branch, `Call` returns the nil slice
and `Discover` returns false; the only line logged is the timeout warning and
the result of `ReadResponse` (arbitrary here, a nil pointer included) is never
looked at. -/
theorem timeout_gives_no_result (c : Client) (sch : Sched) (method : String)
    (args : Slice Value) :
    ((selectSignal clientCallTimeOut
          (c.clientCodec.WriteRequest { Method := method, Args := args }).doneAt
          sch.tieWrite = false
        ∨ (selectSignal clientCallTimeOut
            (c.clientCodec.WriteRequest { Method := method, Args := args }).doneAt
            sch.tieWrite = true
          ∧ selectSignal clientCallTimeOut
            (c.clientCodec.ReadResponse { Method := method, Args := args }).doneAt
            sch.tieRead = false)) →
      (c.Call sch method args).result = Except.ok none
        ∧ ((c.Call sch method args).log
            = [LogEntry.warn "rpc client: WriteRequest timeout: expect within 4s"]
          ∨ (c.Call sch method args).log
            = [LogEntry.warn "rpc client: ReadResponse timeout: expect within 4s"]))
    ∧ ((selectSignal clientCallTimeOut
          (c.clientCodec.WriteRequest { Method := "Discover:" ++ method, Args := none }).doneAt
          sch.tieWrite = false
        ∨ (selectSignal clientCallTimeOut
            (c.clientCodec.WriteRequest { Method := "Discover:" ++ method, Args := none }).doneAt
            sch.tieWrite = true
          ∧ selectSignal clientCallTimeOut
            (c.clientCodec.ReadResponse { Method := "Discover:" ++ method, Args := none }).doneAt
            sch.tieRead = false)) →
      (c.Discover sch method).result = Except.ok false
        ∧ ((c.Discover sch method).log
            = [LogEntry.warn "rpc client: WriteRequest timeout: expect within 4s"]
          ∨ (c.Discover sch method).log
            = [LogEntry.warn "rpc client: ReadResponse timeout: expect within 4s"])) := by
  constructor
  · rintro (h | ⟨h1, h2⟩)
    · simp [Client.Call, h]
    · simp [Client.Call, h1, h2]
  · rintro (h | ⟨h1, h2⟩)
    · simp [Client.Discover, h]
    · simp [Client.Discover, h1, h2]

/-- Witness for C6: a write that never returns, and a read that returns after
ten seconds with a nil pointer behind a quick write. -/
theorem timeout_gives_no_result_witness :
    ((Client.mk (constCodec stuckWrite brokenRead)).Call sched0 "slow" none).result
        = Except.ok none
      ∧ ((Client.mk (constCodec quickWrite
            { resp := none, err := none, doneAt := some (second * 10) })).Discover
          sched0 "slow").result = Except.ok false :=
  ⟨((timeout_gives_no_result (Client.mk (constCodec stuckWrite brokenRead)) sched0 "slow"
      none).1 (Or.inl (by decide))).1,
   ((timeout_gives_no_result (Client.mk (constCodec quickWrite
      { resp := none, err := none, doneAt := some (second * 10) })) sched0 "slow"
      none).2 (Or.inr ⟨by decide, by decide⟩)).1⟩

/-! ## Requests written -/

/-- C9: `Discover(m)` hands `WriteRequest` exactly one request, with method
`"Discover:" ++ m` and a nil argument list; `Call(m, args...)` hands it exactly
one request, with method `m` and arguments `args`. -/
theorem requests_written (c : Client) (sch : Sched) (method : String) (args : Slice Value) :
    (c.Discover sch method).written = [{ Method := "Discover:" ++ method, Args := none }]
      ∧ (c.Call sch method args).written = [{ Method := method, Args := args }] := by
  constructor
  · unfold Client.Discover
    simp only []
    repeat' split
    all_goals rfl
  · unfold Client.Call
    simp only []
    repeat' split
    all_goals rfl

/-- C10: two codecs whose `WriteRequest` differ only in the error returned
(same return instants) and whose `ReadResponse` agree give the same run of
`Call` and of `Discover` (same codec calls, same log, same returned value);
and whenever the write signals in time, `ReadResponse` is called. -/
theorem write_error_ignored (c1 c2 : Client) (sch : Sched) (method : String)
    (args : Slice Value)
    (hw : ∀ q, (c1.clientCodec.WriteRequest q).doneAt = (c2.clientCodec.WriteRequest q).doneAt)
    (hr : c1.clientCodec.ReadResponse = c2.clientCodec.ReadResponse) :
    c1.Call sch method args = c2.Call sch method args
      ∧ c1.Discover sch method = c2.Discover sch method
      ∧ (selectSignal clientCallTimeOut
            (c1.clientCodec.WriteRequest { Method := method, Args := args }).doneAt
            sch.tieWrite = true →
          CodecOp.readResponse ∈ (c1.Call sch method args).ops)
      ∧ (selectSignal clientCallTimeOut
            (c1.clientCodec.WriteRequest { Method := "Discover:" ++ method, Args := none }).doneAt
            sch.tieWrite = true →
          CodecOp.readResponse ∈ (c1.Discover sch method).ops) := by
  refine ⟨?_, ?_, ?_, ?_⟩
  · simp only [Client.Call, hw, hr]
  · simp only [Client.Discover, hw, hr]
  · intro h
    unfold Client.Call
    simp only [h]
    repeat' split
    all_goals simp_all
  · intro h
    unfold Client.Discover
    simp only [h]
    repeat' split
    all_goals simp_all

/-- Witness for C10: a write that fails with `broken pipe` against one that
succeeds, before the same read. -/
theorem write_error_ignored_witness :
    (Client.mk (constCodec failedWrite (readOf { Replies := some [Value.int 5], Err := "" }))).Call
        sched0 "f" none
      = (Client.mk (constCodec quickWrite
          (readOf { Replies := some [Value.int 5], Err := "" }))).Call sched0 "f" none
    ∧ ((Client.mk (constCodec failedWrite
          (readOf { Replies := some [Value.int 5], Err := "" }))).Call sched0 "f" none).result
      = Except.ok (some [Value.int 5]) :=
  ⟨(write_error_ignored
      (Client.mk (constCodec failedWrite (readOf { Replies := some [Value.int 5], Err := "" })))
      (Client.mk (constCodec quickWrite (readOf { Replies := some [Value.int 5], Err := "" })))
      sched0 "f" none (fun _ => rfl) rfl).1, rfl⟩

/-! ## The mutex discipline -/

namespace Conc

set_option maxHeartbeats 4000000 in
/-- What one action does to the invocation taking it, in terms of the
invariant: it stays consistent, nothing aborts, it comes to hold the mutex
only by locking a free mutex, and the mutex is released only by its holder. -/
theorem localStep_ok (a : Act) (lock : Bool) (v : Inv) (l f : Bool) (u : Inv)
    (hwf : wf v = true) (hA : holds v = true → lock = true)
    (h : localStep a lock v = some (l, f, u)) :
    wf u = true ∧ f = false
      ∧ (holds u = true → l = true ∧ (holds v = true ∨ lock = false))
      ∧ (l = false → lock = true → holds v = true) := by
  rcases v with ⟨k, m, w, r⟩
  cases a with
  | lock kk =>
    cases m <;> simp only [localStep] at h <;> (try contradiction)
    split at h
    · contradiction
    · rename_i hl
      simp only [Bool.not_eq_true] at hl
      subst hl
      simp only [Option.some.injEq, Prod.mk.injEq] at h
      obtain ⟨rfl, rfl, rfl⟩ := h
      revert hwf hA
      cases kk <;> cases k <;> cases w <;> cases r <;> decide
  | _ =>
    cases m <;> simp only [localStep] at h <;> (try contradiction) <;>
    (try split at h) <;> (try contradiction) <;>
    (simp only [Option.some.injEq, Prod.mk.injEq] at h; obtain ⟨rfl, rfl, rfl⟩ := h) <;>
    (try subst_vars) <;>
    (revert hwf hA; cases k <;> (try cases w) <;> (try cases r) <;> cases lock <;> decide)

theorem step_eq_some (s t : State) (e : Nat × Act) (h : step s e = some t) :
    s.fatal = false ∧ ∃ l f u, localStep e.2 s.lock (s.inv e.1) = some (l, f, u)
      ∧ t = { lock := l, fatal := f, inv := setInv s.inv e.1 u } := by
  unfold step at h
  cases hf : s.fatal
  · refine ⟨rfl, ?_⟩
    simp only [hf] at h
    cases hl : localStep e.2 s.lock (s.inv e.1) with
    | none => simp [hl] at h
    | some r =>
      obtain ⟨l, f, u⟩ := r
      simp only [hl, Bool.false_eq_true, if_false, Option.some.injEq] at h
      exact ⟨l, f, u, rfl, h.symm⟩
  · simp [hf] at h

theorem good_init : Good State.init := by
  have hw : wf Inv.fresh = true := by decide
  have hh : ¬ holds Inv.fresh = true := by decide
  exact ⟨rfl, fun _ => hw, fun _ h => absurd h hh, fun _ _ h => absurd h hh⟩

theorem good_step (s t : State) (e : Nat × Act) (hs : Good s) (h : step s e = some t) :
    Good t := by
  obtain ⟨_, l, f, u, hl, rfl⟩ := step_eq_some s t e h
  obtain ⟨_, hwf, hA, hB⟩ := hs
  obtain ⟨h1, h2, h3, h4⟩ := localStep_ok e.2 s.lock (s.inv e.1) l f u (hwf e.1) (hA e.1) hl
  refine ⟨h2, fun i => ?_, fun i hi => ?_, fun i j hi hj => ?_⟩
  · simp only [setInv]
    split
    · exact h1
    · exact hwf i
  · simp only [setInv] at hi
    split at hi
    · exact (h3 hi).1
    · rename_i hne
      cases hlk : l
      · exact absurd (hB _ _ (h4 hlk (hA i hi)) hi) (fun heq => hne heq.symm)
      · rfl
  · simp only [setInv] at hi hj
    split at hi <;> split at hj
    · rename_i h1 h2
      rw [h1, h2]
    · rename_i hie hje
      exfalso
      rcases (h3 hi).2 with hv | hv
      · exact hje (hB _ _ hj hv)
      · rw [hA j hj] at hv
        exact Bool.noConfusion hv
    · rename_i hie hje
      exfalso
      rcases (h3 hj).2 with hv | hv
      · exact hie (hB _ _ hi hv)
      · rw [hA i hi] at hv
        exact Bool.noConfusion hv
    · exact hB i j hi hj

theorem good_run (es : List (Nat × Act)) (s t : State) (hs : Good s) (h : run s es = some t) :
    Good t := by
  induction es generalizing s with
  | nil =>
    simp only [run, Option.some.injEq] at h
    exact h ▸ hs
  | cons e es ih =>
    simp only [run] at h
    cases hst : step s e with
    | none => simp [hst] at h
    | some m =>
      simp only [hst] at h
      exact ih m (good_step s m e hs hst) h

theorem good_of_reachable (s : State) (h : Reachable s) : Good s := by
  obtain ⟨es, hes⟩ := h
  exact good_run es State.init s good_init hes

/-- No interleaving makes the run-time abort on an `Unlock` of a free mutex. -/
theorem reachable_not_fatal (s : State) (h : Reachable s) : s.fatal = false :=
  (good_of_reachable s h).1

/-- An invocation inside `WriteRequest` that has not run the `Unlock` of its
write-timeout branch holds the mutex. -/
theorem holds_of_live_write (v : Inv) (hwf : wf v = true) (hw : v.writer = WriterPc.writing)
    (hm : abandoned v = false) : holds v = true := by
  rcases v with ⟨k, m, w, r⟩
  simp only at hw
  subst hw
  revert hwf hm
  cases k <;> cases m <;> cases r <;> decide

/-- The overlap starts as soon as the write-timeout branch has unlocked: the
earlier invocation need not have returned yet. -/
theorem writes_overlap_before_return :
    Reachable earlyOverlapState
      ∧ (earlyOverlapState.inv 0).main = MainPc.writeUnlocked
      ∧ (earlyOverlapState.inv 0).writer = WriterPc.writing
      ∧ (earlyOverlapState.inv 1).writer = WriterPc.writing :=
  ⟨⟨earlyOverlapTrace, rfl⟩, rfl, rfl, rfl⟩

/-- C7 (counterexample): invocation 0 returns on its write timeout while its
`WriteRequest` is still running, then invocation 1 locks the mutex and starts
its own `WriteRequest`: two `WriteRequest` executions overlap on the codec. -/
theorem writes_overlap_after_write_timeout :
    ∃ s, Reachable s ∧ (s.inv 0).main = MainPc.retWriteTimeout
      ∧ (s.inv 0).writer = WriterPc.writing ∧ (s.inv 1).writer = WriterPc.writing
      ∧ (0 : Nat) ≠ 1 :=
  ⟨overlapState, ⟨overlapTrace, rfl⟩, rfl, rfl, rfl, by decide⟩

/-- C7 (amended): in every reachable state, two invocations that are both
inside `WriteRequest` and of which neither has run the `c.sending.Unlock()` of
its write-timeout branch are the same invocation, and the mutex is locked for
it. -/
theorem live_writes_exclusive (s : State) (h : Reachable s) (i j : Nat)
    (hi : (s.inv i).writer = WriterPc.writing) (hj : (s.inv j).writer = WriterPc.writing)
    (hia : abandoned (s.inv i) = false) (hja : abandoned (s.inv j) = false) :
    i = j ∧ s.lock = true := by
  obtain ⟨_, hwf, hA, hB⟩ := good_of_reachable s h
  have h1 := holds_of_live_write (s.inv i) (hwf i) hi hia
  have h2 := holds_of_live_write (s.inv j) (hwf j) hj hja
  exact ⟨hB i j h1 h2, hA i h1⟩

/-- Witness for C7 (amended): invocation 0 inside `WriteRequest`, waiting in
its first `select`. -/
theorem live_writes_exclusive_witness :
    Reachable writingState ∧ (writingState.inv 0).writer = WriterPc.writing
      ∧ abandoned (writingState.inv 0) = false
      ∧ writingState.lock = true :=
  ⟨⟨overlapTrace.take 3, rfl⟩, rfl, rfl,
   (live_writes_exclusive writingState ⟨overlapTrace.take 3, rfl⟩ 0 0 rfl rfl rfl rfl).2⟩

end Conc

namespace Conc

/-! ## A `Call` whose read timed out -/

/-- No action moves the calling goroutine out of the read-timeout return, nor
changes the kind of the invocation. -/
theorem localStep_keeps_read_timeout (a : Act) (lock : Bool) (v : Inv) (l f : Bool) (u : Inv)
    (h : localStep a lock v = some (l, f, u)) (hm : v.main = MainPc.retReadTimeout) :
    u.main = MainPc.retReadTimeout ∧ u.kind = v.kind := by
  rcases v with ⟨k, m, w, r⟩
  simp only at hm
  subst hm
  cases a <;> simp only [localStep] at h <;> (try contradiction) <;>
    (split at h) <;> (try contradiction) <;>
    (simp only [Option.some.injEq, Prod.mk.injEq] at h; obtain ⟨-, -, rfl⟩ := h;
     exact ⟨rfl, rfl⟩)

theorem step_keeps_read_timeout (s t : State) (e : Nat × Act) (i : Nat)
    (h : step s e = some t) (hm : (s.inv i).main = MainPc.retReadTimeout) :
    (t.inv i).main = MainPc.retReadTimeout ∧ (t.inv i).kind = (s.inv i).kind := by
  obtain ⟨_, l, f, u, hl, rfl⟩ := step_eq_some s t e h
  simp only [setInv]
  split
  · rename_i hie
    subst hie
    exact localStep_keeps_read_timeout e.2 s.lock (s.inv e.1) l f u hl hm
  · exact ⟨hm, rfl⟩

theorem run_keeps_read_timeout (es : List (Nat × Act)) (s t : State) (i : Nat)
    (h : run s es = some t) (hm : (s.inv i).main = MainPc.retReadTimeout) :
    (t.inv i).main = MainPc.retReadTimeout ∧ (t.inv i).kind = (s.inv i).kind := by
  induction es generalizing s with
  | nil =>
    simp only [run, Option.some.injEq] at h
    subst h
    exact ⟨hm, rfl⟩
  | cons e es ih =>
    simp only [run] at h
    cases hst : step s e with
    | none => simp [hst] at h
    | some m =>
      simp only [hst] at h
      obtain ⟨h1, h2⟩ := step_keeps_read_timeout s m e i hst hm
      obtain ⟨h3, h4⟩ := ih m h h1
      exact ⟨h3, h4.trans h2⟩

/-- With the mutex locked no invocation gets past `c.sending.Lock()`. -/
theorem localStep_lock_blocked (k : Kind) (v : Inv) : localStep (Act.lock k) true v = none := by
  rcases v with ⟨kk, m, w, r⟩
  cases m <;> rfl

/-- After the read-timeout return the reader goroutine is inside
`ReadResponse` or at its send. -/
theorem reader_of_read_timeout (v : Inv) (hwf : wf v = true)
    (hm : v.main = MainPc.retReadTimeout) :
    v.reader = ReaderPc.reading ∨ v.reader = ReaderPc.sending := by
  rcases v with ⟨k, m, w, r⟩
  simp only at hm
  subst hm
  revert hwf
  cases k <;> cases w <;> cases r <;> decide

/-- After the read-timeout return, with the reader goroutine at its send, the
invocation has no action left: nobody receives from `read`. -/
theorem localStep_stuck (a : Act) (lock : Bool) (v : Inv) (hwf : wf v = true)
    (hm : v.main = MainPc.retReadTimeout) (hr : v.reader = ReaderPc.sending) :
    localStep a lock v = none := by
  rcases v with ⟨k, m, w, r⟩
  simp only at hm hr
  subst hm
  subst hr
  revert hwf
  cases a with
  | lock kk => cases kk <;> cases k <;> cases w <;> cases lock <;> decide
  | _ => cases k <;> cases w <;> cases lock <;> decide

/-- C8 (the code at the failing input, in general): once a `Call` has returned
on its read timeout, in every state the client reaches afterwards the mutex is
still locked, the reader goroutine of that `Call` is inside `ReadResponse` or
blocked at its send, no invocation can get past `c.sending.Lock()`, and once
`ReadResponse` has returned the invocation can take no further step at all,
so its `c.sending.Unlock()` never runs. -/
theorem Call_read_timeout_never_unlocks (s t : State) (hs : Reachable s) (i : Nat)
    (hk : (s.inv i).kind = Kind.call) (hm : (s.inv i).main = MainPc.retReadTimeout)
    (es : List (Nat × Act)) (hrun : run s es = some t) :
    t.lock = true
      ∧ ((t.inv i).reader = ReaderPc.reading ∨ (t.inv i).reader = ReaderPc.sending)
      ∧ (∀ j k, step t (j, Act.lock k) = none)
      ∧ ((t.inv i).reader = ReaderPc.sending → ∀ a, step t (i, a) = none) := by
  obtain ⟨hf, hwf, hA, _⟩ := good_run es s t (good_of_reachable s hs) hrun
  obtain ⟨hm2, hk2⟩ := run_keeps_read_timeout es s t i hrun hm
  have hh : holds (t.inv i) = true := by
    simp [holds, hm2, hk2, hk]
  have hlock : t.lock = true := hA i hh
  refine ⟨hlock, reader_of_read_timeout _ (hwf i) hm2, fun j k => ?_, fun hr a => ?_⟩
  · simp [step, hf, hlock, localStep_lock_blocked]
  · simp [step, hf, localStep_stuck a t.lock (t.inv i) (hwf i) hm2 hr]

/-- Witness for C8: a `Call` returns on its read timeout, then `ReadResponse`
returns; the reader goroutine sits at its send and the mutex stays locked. -/
theorem Call_read_timeout_never_unlocks_witness :
    Reachable readTimedOutState
      ∧ (readTimedOutState.inv 0).kind = Kind.call
      ∧ (readTimedOutState.inv 0).main = MainPc.retReadTimeout
      ∧ run readTimedOutState [(0, Act.endRead)] = some readReturnedState
      ∧ (readReturnedState.inv 0).reader = ReaderPc.sending
      ∧ readReturnedState.lock = true
      ∧ step readReturnedState (1, Act.lock Kind.call) = none
      ∧ step readReturnedState (0, Act.readerUnlock) = none :=
  have h := Call_read_timeout_never_unlocks readTimedOutState readReturnedState
    ⟨readTimeoutTrace.dropLast, rfl⟩ 0 rfl rfl [(0, Act.endRead)] rfl
  ⟨⟨readTimeoutTrace.dropLast, rfl⟩, rfl, rfl, rfl, rfl, h.1, h.2.2.1 1 Kind.call,
   h.2.2.2 rfl Act.readerUnlock⟩

end Conc

end JRPC
